import Mathlib

/-!
Shallow embedding of the VoltWire server-side reactive component layer
(`voltwire/components.py`, `voltwire/decorators.py`).

Python values that can appear as component properties are modelled by the
inductive type `Value`; Python's `isinstance(value, (int, float))` is `True`
for `bool` (a subclass of `int`), which the embedding reflects.  Fallible
Python code (raising `ValueError` / `TypeError` / `IndexError`) is modelled
with `Except String`.
-/

deriving instance DecidableEq for Except

namespace VoltWire

/-- A Python value as seen by the component layer: strings, integers,
booleans, `None`, opaque non-JSON-serializable objects (carrying their
`str()` representation), and callables (methods). -/
inductive Value where
  | vStr (s : String)
  | vInt (n : Int)
  | vBool (b : Bool)
  | vNone
  | vObj (rep : String)
  | vCallable (name : String)
  deriving DecidableEq, Repr

/-- Python truthiness (`if value:`) for the modelled values. -/
def pyTruthy : Value → Bool
  | .vStr s => s ≠ ""
  | .vInt n => n ≠ 0
  | .vBool b => b
  | .vNone => false
  | .vObj _ => true
  | .vCallable _ => true

/-- Python `str(value)` for the modelled values. -/
def pyStr : Value → String
  | .vStr s => s
  | .vInt n => toString n
  | .vBool b => if b then "True" else "False"
  | .vNone => "None"
  | .vObj rep => rep
  | .vCallable name => name

/-- Python `callable(value)`. -/
def pyCallable : Value → Bool
  | .vCallable _ => true
  | _ => false

/-- `isinstance(value, (int, float))`: true for integers AND booleans,
since Python's `bool` is a subclass of `int`. -/
def pyIsNumeric : Value → Bool
  | .vInt _ => true
  | .vBool _ => true
  | _ => false

/-- The numeric value used by comparisons when `pyIsNumeric` holds
(`True` compares as `1`, `False` as `0`). -/
def pyNumVal : Value → Int
  | .vInt n => n
  | .vBool b => if b then 1 else 0
  | _ => 0

/-- `isinstance(value, str)`. -/
def pyIsStr : Value → Bool
  | .vStr _ => true
  | _ => false

/-! ### Python string helpers (`str.split`, `str.strip`, `int(...)`) -/

/-- Whitespace for `str.strip()` (ASCII subset). -/
def isWS (c : Char) : Bool :=
  c = ' ' || c = '\t' || c = '\n' || c = '\r'

/-- `str.strip()` on a character list: drop whitespace at both ends. -/
def stripList (l : List Char) : List Char :=
  ((l.dropWhile isWS).reverse.dropWhile isWS).reverse

/-- Auxiliary for `splitChar`: `acc` holds the current chunk reversed. -/
def splitCharAux (sep : Char) : List Char → List Char → List (List Char)
  | [], acc => [acc.reverse]
  | x :: xs, acc =>
      if x = sep then acc.reverse :: splitCharAux sep xs []
      else splitCharAux sep xs (x :: acc)

/-- Python `s.split(sep)` for a one-character separator
(`"".split(sep) = [""]`, `"a|b".split("|") = ["a", "b"]`). -/
def splitChar (sep : Char) (l : List Char) : List (List Char) :=
  splitCharAux sep l []

/-- Digit run to a natural number. -/
def digitsVal (l : List Char) : Nat :=
  l.foldl (fun acc c => acc * 10 + (c.toNat - 48)) 0

/-- Parse a non-empty all-digit run. -/
def parseDigits (l : List Char) : Option Nat :=
  if l ≠ [] ∧ l.all Char.isDigit then some (digitsVal l) else none

/-- Python `int(s)` on the forms the rule parser meets: optional
surrounding whitespace, an optional sign, then decimal digits; `none`
models `ValueError`. -/
def pyInt? (l : List Char) : Option Int :=
  match stripList l with
  | '-' :: rest => (parseDigits rest).map (fun n => -(n : Int))
  | '+' :: rest => (parseDigits rest).map (fun n => (n : Int))
  | rest => (parseDigits rest).map (fun n => (n : Int))

/-- The regex `^[^@]+@[^@]+\.[^@]+$` from `_validate_property`'s `email`
rule: a non-empty `@`-free part, one `@`, then an `@`-free tail containing
a `.` that has at least one character on each side within the tail. -/
def pyEmailMatch (s : String) : Bool :=
  let l := s.toList
  let a := l.takeWhile (· ≠ '@')
  let t := (l.dropWhile (· ≠ '@')).drop 1
  a ≠ [] && l.contains '@' && !t.contains '@' && ((t.drop 1).dropLast).contains '.'

/-! ### The validation engine (`VoltWireComponent._validate_property`) -/

/-- Error messages used by `_validate_property` (f-strings in the source). -/
def reqMsg : String := "This field is required."

def minNumMsg (m : Int) : String := "Value must be at least " ++ toString m ++ "."

def minLenMsg (m : Int) : String := "Must be at least " ++ toString m ++ " characters."

def maxNumMsg (m : Int) : String := "Value must be at most " ++ toString m ++ "."

def maxLenMsg (m : Int) : String := "Must be at most " ++ toString m ++ " characters."

def emailMsg : String := "Must be a valid email address."

/-- One iteration of `_validate_property`'s rule loop, on a stripped rule.
`required` fails on `None` or `''`; `min:`/`max:` first parse the parameter
with `int(...)` (raising `ValueError` on failure), then compare numerically
for `int`/`float`/`bool` values, by length for strings, and do nothing for
other types; `email` is skipped for falsy values and calls `re.match`,
which raises `TypeError` on non-string truthy values; unknown rules are
silently ignored. -/
def applyRule (v : Value) (rule : List Char) : Except String (List String) :=
  if rule = "required".toList then
    .ok (if v = .vNone ∨ v = .vStr "" then [reqMsg] else [])
  else if rule.take 4 = "min:".toList then
    match splitChar ':' rule with
    | _ :: p :: _ =>
      match pyInt? p with
      | none => .error "ValueError"
      | some m =>
        .ok (if pyIsNumeric v then (if pyNumVal v < m then [minNumMsg m] else [])
             else if pyIsStr v then
               (if (pyStr v).length < m then [minLenMsg m] else [])
             else [])
    | _ => .error "IndexError"
  else if rule.take 4 = "max:".toList then
    match splitChar ':' rule with
    | _ :: p :: _ =>
      match pyInt? p with
      | none => .error "ValueError"
      | some m =>
        .ok (if pyIsNumeric v then (if m < pyNumVal v then [maxNumMsg m] else [])
             else if pyIsStr v then
               (if m < (pyStr v).length then [maxLenMsg m] else [])
             else [])
    | _ => .error "IndexError"
  else if rule = "email".toList then
    if pyTruthy v then
      match v with
      | .vStr s => .ok (if pyEmailMatch s then [] else [emailMsg])
      | _ => .error "TypeError: expected string or bytes-like object"
    else .ok []
  else .ok []

/-- The rule loop: every rule runs; each rule's violations are appended to
the accumulated list; an exception aborts the call. -/
def collectRules (v : Value) : List (List Char) → Except String (List String)
  | [] => .ok []
  | r :: rs => do
      let e ← applyRule v r
      let es ← collectRules v rs
      .ok (e ++ es)

/-- `VoltWireComponent._validate_property(name, value, rules)`: split the
rule string on `|`, strip each piece, evaluate all rules in order. -/
def validateProperty (v : Value) (rules : String) : Except String (List String) :=
  collectRules v ((splitChar '|' rules.toList).map stripList)

/-! ### The component instance (`VoltWireComponent`) -/

/-- A `VoltWireComponent` instance: `instAttrs` models `self.__dict__`
(instance attributes, insertion order), `classAttrs` the class-level
attributes visible through `getattr` (class defaults and methods),
`validationRules` the `_validation_rules` mapping the instance sees,
`errors` the `_errors` dict, and the two `_is_voltwire_request` /
`_initialized_properties` flags. -/
structure PyComponent where
  instAttrs : List (String × Value)
  classAttrs : List (String × Value)
  validationRules : List (String × String)
  errors : List (String × List String)
  isVoltwireRequest : Bool
  initializedProperties : Bool
  deriving DecidableEq, Repr

/-- `getattr(self, name)` as an option: instance dict first, then class. -/
def pyGetattr? (c : PyComponent) (n : String) : Option Value :=
  (List.lookup n c.instAttrs).orElse (fun _ => List.lookup n c.classAttrs)

/-- `hasattr(self, name)`. -/
def hasattrB (c : PyComponent) (n : String) : Bool :=
  (pyGetattr? c n).isSome

/-- `getattr(self, name)` where the attribute is known to exist
(defaulting to `None` otherwise). -/
def pyGetattrV (c : PyComponent) (n : String) : Value :=
  (pyGetattr? c n).getD .vNone

/-- `dir(self)` restricted to the modelled attributes: every instance and
class attribute name, without duplicates. -/
def pyDir (c : PyComponent) : List String :=
  (c.instAttrs.map Prod.fst ++ c.classAttrs.map Prod.fst).dedup

/-- `name.startswith('_')`. -/
def pyIsPrivate (n : String) : Bool :=
  n.toList.head? = some '_'

/-! ### Property initialization (`VoltWireComponent._initialize_properties`) -/

/-- One iteration of `_initialize_properties`'s loop: skip names starting
with `_`, skip callables, skip names already in `self.__dict__`, otherwise
set the current `getattr` value as an instance attribute. -/
def initStep (c : PyComponent) (n : String) : PyComponent :=
  if pyIsPrivate n then c
  else
    match pyGetattr? c n with
    | none => c
    | some v =>
      if pyCallable v then c
      else if (List.lookup n c.instAttrs).isSome then c
      else { c with instAttrs := c.instAttrs ++ [(n, v)] }

/-- `VoltWireComponent._initialize_properties`: a no-op once the
`_initialized_properties` flag is set; otherwise copy every public
non-callable attribute not yet in the instance dict into it, then set the
flag. -/
def initializeProperties (c : PyComponent) : PyComponent :=
  if c.initializedProperties then c
  else { (pyDir c).foldl initStep c with initializedProperties := true }

/-! ### Property serialization (`VoltWireComponent._get_serialized_properties`) -/

/-- Whether `json.dumps(value)` succeeds on a modelled value. -/
def jsonSafe : Value → Bool
  | .vStr _ => true
  | .vInt _ => true
  | .vBool _ => true
  | .vNone => true
  | .vObj _ => false
  | .vCallable _ => false

/-- The `try json.dumps / except: str(value)` fallback. -/
def serializeValue (v : Value) : Value :=
  if jsonSafe v then v else .vStr (pyStr v)

/-- `VoltWireComponent._get_serialized_properties`: every public
non-callable attribute, with the JSON-dump-or-`str()` fallback applied. -/
def getSerializedProperties (c : PyComponent) : List (String × Value) :=
  (pyDir c).filterMap (fun n =>
    if pyIsPrivate n then none
    else
      match pyGetattr? c n with
      | none => none
      | some v => if pyCallable v then none else some (n, serializeValue v))

/-! ### Validation entry point (`VoltWireComponent.is_valid`) -/

/-- The loop body of `is_valid`: walk `_validation_rules` in declaration
order; fields without a matching attribute (`hasattr` false) are skipped;
fields whose `_validate_property` call returns a non-empty error list are
recorded; an exception aborts the call. -/
def collectErrors (c : PyComponent) :
    List (String × String) → Except String (List (String × List String))
  | [] => .ok []
  | (name, rules) :: rest =>
      if hasattrB c name then
        match validateProperty (pyGetattrV c name) rules with
        | .error e => .error e
        | .ok errs =>
          if errs = [] then collectErrors c rest
          else (collectErrors c rest).map (fun es => (name, errs) :: es)
      else collectErrors c rest

/-- `VoltWireComponent.is_valid`: reset `self._errors` to empty, re-run the
validation loop over `_validation_rules`, and return `len(errors) == 0`. -/
def isValid (c : PyComponent) : Except String (PyComponent × Bool) :=
  (collectErrors c c.validationRules).map
    (fun es => ({ c with errors := es }, es.isEmpty))

/-! ### Request dispatch (`VoltWireComponent.dispatch`) -/

/-- An inbound HTTP request: method, headers and POST form data. -/
structure Request where
  method : String
  headers : List (String × String)
  postData : List (String × String)
  deriving DecidableEq, Repr

/-- `request.headers.get(name)` (names are used verbatim here). -/
def headerGet (req : Request) (n : String) : Option String :=
  List.lookup n req.headers

/-- `request.POST.get(name)` (`None` when absent). -/
def postGet (req : Request) (n : String) : Option String :=
  List.lookup n req.postData

/-- ASCII lower-casing of one character (`str.lower()` on the method
names this code meets). -/
def pyLowerChar (c : Char) : Char :=
  if 'A' ≤ c ∧ c ≤ 'Z' then Char.ofNat (c.toNat + 32) else c

/-- Python `s.lower()` (ASCII range). -/
def pyLower (s : String) : String :=
  String.mk (s.toList.map pyLowerChar)

/-- `django.views.View.http_method_names`. -/
def httpMethodNames : List String :=
  ["get", "post", "put", "patch", "delete", "head", "options", "trace"]

/-- What `dispatch` ends up invoking: a component attribute fetched by the
client-supplied action name, the generic verb handler, or
`http_method_not_allowed`. -/
inductive DispatchOutcome where
  | action (name : String)
  | handler (name : String)
  | methodNotAllowed
  deriving DecidableEq, Repr

/-- `VoltWireComponent.dispatch`: set `_is_voltwire_request` from the
`X-VoltWire-Request` header; pick the verb handler (or
`http_method_not_allowed`); then, for a reactive POST whose
`voltwire_action` field is truthy and names SOME attribute of the instance
(`hasattr`), fetch that attribute by reflection and invoke it; in every
other case fall through to the verb handler. -/
def dispatch (c : PyComponent) (req : Request) : PyComponent × DispatchOutcome :=
  let c := { c with isVoltwireRequest := headerGet req "X-VoltWire-Request" = some "true" }
  let verb := pyLower req.method
  let handlerOutcome :=
    if verb ∈ httpMethodNames ∧ hasattrB c verb then DispatchOutcome.handler verb
    else DispatchOutcome.methodNotAllowed
  if c.isVoltwireRequest ∧ req.method = "POST" then
    match postGet req "voltwire_action" with
    | some a => if a ≠ "" ∧ hasattrB c a then (c, .action a) else (c, handlerOutcome)
    | none => (c, handlerOutcome)
  else (c, handlerOutcome)

/-- Drop every occurrence of a key from a form-data list. -/
def removeKey : List (String × String) → String → List (String × String)
  | [], _ => []
  | p :: rest, k => if p.1 = k then removeKey rest k else p :: removeKey rest k

/-! ### Template resolution (`VoltWireComponent.get_template_name`) -/

/-- Candidate template identifier for a component name and extension. -/
def templateCandidate (className ext : String) : String :=
  "VoltWire/" ++ className ++ ext

/-- The default `_template_extensions` list. -/
def defaultTemplateExtensions : List String := [".vw.html", ".html"]

/-- `VoltWireComponent.get_template_name`: probe
`VoltWire/{ClassName}{ext}` for each configured extension in order,
returning the first identifier present in the template store
(`get_template` succeeding); when none exists, return the literal fallback
`VoltWire/{ClassName}.html`. -/
def getTemplateName (className : String) (extensions : List String)
    (store : List String) : String :=
  match extensions.find? (fun ext => store.contains (templateCandidate className ext)) with
  | some ext => templateCandidate className ext
  | none => "VoltWire/" ++ className ++ ".html"

/-! ### Redirects (`VoltWireComponent.redirect`) -/

/-- A JSON value as used in the redirect envelope. -/
inductive JsonVal where
  | jbool (b : Bool)
  | jstr (s : String)
  | jnull
  deriving DecidableEq, Repr

/-- The result of `VoltWireComponent.redirect`: a `JsonResponse` (modelled
as its field list) or a standard HTTP redirect response. -/
inductive RedirectResult where
  | json (fields : List (String × JsonVal))
  | http (url : String)
  deriving DecidableEq, Repr

/-- `VoltWireComponent.redirect(view_name)`: for a reactive request,
return `JsonResponse({'success': True, 'redirect': reverse(view_name)})`
(no `html` key); otherwise issue a standard HTTP redirect.  `reverseFn`
models Django's `reverse` URL resolver. -/
def componentRedirect (c : PyComponent) (reverseFn : String → String)
    (viewName : String) : RedirectResult :=
  if c.isVoltwireRequest then
    .json [("success", .jbool true), ("redirect", .jstr (reverseFn viewName))]
  else .http (reverseFn viewName)

/-! ### The `@validate` decorator (`voltwire/decorators.py`) -/

/-- A Python function object as the `@validate` decorator sees it: its
`__name__` and its own `_validation_rules` attribute (absent until the
decorator first creates it). -/
structure PyFunc where
  name : String
  validationRules : Option (List (String × String))
  deriving DecidableEq, Repr

/-- Python dict assignment `d[k] = v`: replace in place, or append. -/
def alSet (l : List (String × String)) (k v : String) : List (String × String) :=
  match l with
  | [] => [(k, v)]
  | (k', v') :: rest => if k' = k then (k, v) :: rest else (k', v') :: alSet rest k v

/-- `voltwire.decorators.validate(rules)` applied to a function: ensure the
function object has a `_validation_rules` dict, store
`rules` under the function's own `__name__` there, and return the function. -/
def validateDec (rules : String) (f : PyFunc) : PyFunc :=
  let m := f.validationRules.getD []
  { f with validationRules := some (alSet m f.name rules) }

/-- A component class definition: its class-level `_validation_rules`
mapping (the one `is_valid` consults via `self._validation_rules`) and its
methods. -/
structure PyClass where
  validationRules : List (String × String)
  methods : List (String × PyFunc)
  deriving DecidableEq, Repr

/-- Applying `@validate(rules)` to the method `mname` of a class body:
only that function object is replaced by its decorated version. -/
def applyValidate (cls : PyClass) (mname rules : String) : PyClass :=
  { cls with methods :=
      cls.methods.map (fun p => if p.1 = mname then (p.1, validateDec rules p.2) else p) }

/-- Building a request-scoped component instance from a class: the
instance sees the class-level `_validation_rules`. -/
def mkComponent (cls : PyClass) (instAttrs classAttrs : List (String × Value)) :
    PyComponent :=
  { instAttrs := instAttrs
    classAttrs := classAttrs
    validationRules := cls.validationRules
    errors := []
    isVoltwireRequest := false
    initializedProperties := false }

/-! ### Concrete fixtures used by counterexamples and witnesses -/

/-- A component class body with `get`/`post` handlers and a `title`
default, but no `save` method. -/
def c1Comp : PyComponent :=
  { instAttrs := []
    classAttrs := [("get", .vCallable "get"), ("post", .vCallable "post"), ("title", .vStr "T")]
    validationRules := []
    errors := []
    isVoltwireRequest := false
    initializedProperties := true }

/-- A reactive (`X-VoltWire-Request: true`) POST carrying
`voltwire_action=save`. -/
def c1Req : Request :=
  { method := "POST"
    headers := [("X-VoltWire-Request", "true")]
    postData := [("voltwire_action", "save")] }

/-- Like `c1Comp` but with a `save` method defined. -/
def c1wComp : PyComponent :=
  { c1Comp with classAttrs := ("save", .vCallable "save") :: c1Comp.classAttrs }

/-- A component declaring a `required` rule for a field `ghost` that is
not an attribute of the instance (neither instance- nor class-level). -/
def c2Comp : PyComponent :=
  { instAttrs := []
    classAttrs := [("post", .vCallable "post")]
    validationRules := [("ghost", "required")]
    errors := [("stale", ["old message"])]
    isVoltwireRequest := false
    initializedProperties := true }

/-- A component with a present field `name` that passes its rule. -/
def c2wComp : PyComponent :=
  { instAttrs := [("name", .vStr "abc")]
    classAttrs := []
    validationRules := [("name", "required")]
    errors := []
    isVoltwireRequest := false
    initializedProperties := true }

/-- A reactive component instance, for the redirect witness. -/
def c4Comp : PyComponent :=
  { instAttrs := []
    classAttrs := []
    validationRules := []
    errors := []
    isVoltwireRequest := true
    initializedProperties := true }

/-- A component with a non-JSON-serializable attribute (`gadget`) and a
plain string attribute (`name`). -/
def c9Comp : PyComponent :=
  { instAttrs := [("gadget", .vObj "<Gadget object>"), ("name", .vStr "hi")]
    classAttrs := []
    validationRules := []
    errors := []
    isVoltwireRequest := false
    initializedProperties := true }

/-- The function object of a `save` method before decoration. -/
def c10Fn : PyFunc := { name := "save", validationRules := none }

/-- A class body whose only rules are to be declared via `@validate`:
its class-level `_validation_rules` is the inherited empty dict. -/
def c10Cls : PyClass := { validationRules := [], methods := [("save", c10Fn)] }

/-! ## Helper lemmas -/

theorem lookup_removeKey (l : List (String × String)) (k : String) :
    List.lookup k (removeKey l k) = none := by
  induction l with
  | nil => rfl
  | cons p rest ih =>
    obtain ⟨k', v'⟩ := p
    by_cases h : k' = k
    · simpa [removeKey, h] using ih
    · have hbeq : (k == k') = false := beq_eq_false_iff_ne.mpr (Ne.symm h)
      simpa [removeKey, h, List.lookup, hbeq] using ih

theorem applyRule_email_str (s : String) :
    applyRule (.vStr s) ['e', 'm', 'a', 'i', 'l'] =
      .ok (if s ≠ "" ∧ pyEmailMatch s = false then [emailMsg] else []) := by
  unfold applyRule
  rw [if_neg (by decide), if_neg (by decide), if_neg (by decide), if_pos (by decide)]
  by_cases h : s = ""
  · simp [pyTruthy, h]
  · by_cases hm : pyEmailMatch s
    · simp [pyTruthy, h, hm]
    · simp [pyTruthy, h, hm]

/-! ## Claim C8 -/

/-- Claim C8: `_initialize_properties` is idempotent — invoking it twice on
an instance yields the same instance state as invoking it once; the second
invocation is a no-op (guarded by the `_initialized_properties` flag). -/
theorem claim_C8_init_idempotent (c : PyComponent) :
    initializeProperties (initializeProperties c) = initializeProperties c := by
  unfold initializeProperties
  by_cases h : c.initializedProperties
  · simp [h]
  · simp [h]

/-! ## Claim C3 -/

/-- Claim C3 counterexample: with the default configured extension list
(whose FIRST element is `.vw.html`) and an empty template store,
`get_template_name` falls back to the hard-coded `VoltWire/Example.html`,
not to the identifier built from the first configured extension. -/
theorem claim_C3_counterexample :
    getTemplateName "Example" defaultTemplateExtensions [] = "VoltWire/Example.html" ∧
    defaultTemplateExtensions.head? = some ".vw.html" ∧
    "VoltWire/Example.html" ≠ templateCandidate "Example" ".vw.html" := by
  decide

/-- Claim C3 amended: when no candidate template exists in the store, the
resolver returns — without raising — the fixed default identifier
`VoltWire/{name}.html`, whose `.html` extension is hard-coded and
independent of the configured extension list. -/
theorem claim_C3_amended (cn : String) (exts store : List String)
    (h : ∀ ext ∈ exts, templateCandidate cn ext ∉ store) :
    getTemplateName cn exts store = "VoltWire/" ++ cn ++ ".html" := by
  unfold getTemplateName
  have hnone : exts.find? (fun ext => store.contains (templateCandidate cn ext)) = none := by
    rw [List.find?_eq_none]
    intro x hx
    simpa [List.elem_iff] using h x hx
  rw [hnone]

/-- Claim C3 amended, witness at a concrete input. -/
theorem claim_C3_witness :
    (∀ ext ∈ defaultTemplateExtensions,
        templateCandidate "Example" ext ∉ ([] : List String)) ∧
    getTemplateName "Example" defaultTemplateExtensions [] = "VoltWire/" ++ "Example" ++ ".html" :=
  ⟨by decide, claim_C3_amended "Example" defaultTemplateExtensions [] (by decide)⟩

/-! ## Claim C4 -/

/-- Claim C4: `redirect(target)` on a reactive request returns a JSON
envelope (not an HTTP redirect) whose `redirect` field is the resolved
target URL and which has no `html` field; on a non-reactive request it
returns a standard HTTP redirect response. -/
theorem claim_C4_redirect (c : PyComponent) (reverseFn : String → String) (viewName : String) :
    (c.isVoltwireRequest = true →
      ∃ fields, componentRedirect c reverseFn viewName = .json fields ∧
        List.lookup "redirect" fields = some (.jstr (reverseFn viewName)) ∧
        List.lookup "html" fields = none) ∧
    (c.isVoltwireRequest = false →
      componentRedirect c reverseFn viewName = .http (reverseFn viewName)) := by
  constructor
  · intro h
    refine ⟨[("success", .jbool true), ("redirect", .jstr (reverseFn viewName))], ?_, ?_, ?_⟩
    · simp [componentRedirect, h]
    · simp [List.lookup]
    · simp [List.lookup]
  · intro h
    simp [componentRedirect, h]

/-- Claim C4, witness at a concrete reactive instance. -/
theorem claim_C4_witness :
    c4Comp.isVoltwireRequest = true ∧
    (∃ fields, componentRedirect c4Comp (fun _ => "/home/") "home" = .json fields ∧
      List.lookup "redirect" fields = some (.jstr ((fun _ => "/home/") "home")) ∧
      List.lookup "html" fields = none) :=
  ⟨rfl, (claim_C4_redirect c4Comp (fun _ => "/home/") "home").1 rfl⟩

/-! ## Claim C6 -/

/-- Claim C6 counterexample: the empty string does not match the
`local@domain.tld` shape, yet the `email` rule appends no error for it
(the rule is skipped for falsy values). -/
theorem claim_C6_counterexample :
    validateProperty (.vStr "") "email" = .ok [] ∧ pyEmailMatch "" = false := by
  decide

/-- Claim C6 amended: for a string value, the `email` rule appends exactly
one error iff the string is NON-EMPTY and does not match the regex shape
`^[^@]+@[^@]+\.[^@]+$`; empty strings (falsy, rule skipped) and matching
strings yield no error. -/
theorem claim_C6_amended (s : String) :
    validateProperty (.vStr s) "email" =
      .ok (if s ≠ "" ∧ pyEmailMatch s = false then [emailMsg] else []) := by
  have hsplit : (splitChar '|' "email".toList).map stripList = [['e', 'm', 'a', 'i', 'l']] := by
    decide
  unfold validateProperty
  rw [hsplit]
  simp only [collectRules, applyRule_email_str]
  exact congrArg Except.ok (List.append_nil _)

/-! ## Counterexamples for claims C5, C7, C1 -/

/-- Claim C5 counterexample: on the numeric value `5` and the rule string
`email|required`, evaluation raises `TypeError` inside the `email` rule
(Python's `re.match` rejects non-string values), so the later `required`
rule never runs and no error list results — even though `required` alone
on `5` yields no violation. -/
theorem claim_C5_counterexample :
    validateProperty (.vInt 5) "email|required" =
      .error "TypeError: expected string or bytes-like object" ∧
    validateProperty (.vInt 5) "required" = .ok [] := by
  decide

/-- Claim C7 counterexample: the boolean `True` is neither a number nor a
string in the spec's typed-value taxonomy, yet `min:2` appends an error
for it, because Python's `bool` is a subclass of `int` and `True`
compares as `1 < 2`. -/
theorem claim_C7_counterexample :
    validateProperty (.vBool true) "min:2" = .ok ["Value must be at least 2."] := by
  decide

/-- Claim C1 counterexample: a reactive POST carrying
`voltwire_action=save` to a component with no `save` attribute yields no
structured rejection — `dispatch` silently falls through to the generic
`post` handler, producing exactly the outcome of the same request with no
action field at all. -/
theorem claim_C1_counterexample :
    hasattrB c1Comp "save" = false ∧
    postGet c1Req "voltwire_action" = some "save" ∧
    (dispatch c1Comp c1Req).2 = .handler "post" ∧
    (dispatch c1Comp c1Req).2 = (dispatch c1Comp { c1Req with postData := [] }).2 := by
  decide

/-! ## Claim C1, amended -/

theorem hasattrB_flag (c : PyComponent) (b : Bool) (n : String) :
    hasattrB { c with isVoltwireRequest := b } n = hasattrB c n := rfl

theorem headerGet_setPost (req : Request) (pd : List (String × String)) (n : String) :
    headerGet { req with postData := pd } n = headerGet req n := rfl

theorem method_setPost (req : Request) (pd : List (String × String)) :
    ({ req with postData := pd } : Request).method = req.method := rfl

/-- Claim C1 amended: on a reactive POST carrying a `voltwire_action`
field, `dispatch` invokes by reflection whatever attribute the
client-supplied name resolves to (`hasattr` over the whole instance, with
no allow-list); when the name is empty or matches no attribute, it falls
through to the generic verb handler exactly as if no action field had been
sent — there is no structured rejection outcome. -/
theorem claim_C1_amended (c : PyComponent) (req : Request) (a : String)
    (hv : headerGet req "X-VoltWire-Request" = some "true")
    (hm : req.method = "POST")
    (ha : postGet req "voltwire_action" = some a) :
    (a ≠ "" ∧ hasattrB c a = true → (dispatch c req).2 = .action a) ∧
    (¬(a ≠ "" ∧ hasattrB c a = true) →
      (dispatch c req).2 =
        (dispatch c { req with postData := removeKey req.postData "voltwire_action" }).2) := by
  have hv' : List.lookup "X-VoltWire-Request" req.headers = some "true" := hv
  have ha' : List.lookup "voltwire_action" req.postData = some a := ha
  constructor
  · intro h
    simp only [dispatch, headerGet, postGet, hasattrB_flag, hm]
    simp [hv', ha', h]
  · intro h
    have hpg : List.lookup "voltwire_action" (removeKey req.postData "voltwire_action") =
        none := lookup_removeKey req.postData "voltwire_action"
    simp only [dispatch, headerGet, postGet, hasattrB_flag, hm]
    simp [hv', ha', hpg, h]

/-- Claim C1 amended, witness: with a `save` method present, the reactive
POST action invokes it by reflection. -/
theorem claim_C1_witness :
    headerGet c1Req "X-VoltWire-Request" = some "true" ∧
    c1Req.method = "POST" ∧
    postGet c1Req "voltwire_action" = some "save" ∧
    (dispatch c1wComp c1Req).2 = .action "save" :=
  ⟨by decide, by decide, by decide,
    (claim_C1_amended c1wComp c1Req "save" (by decide) (by decide) (by decide)).1 (by decide)⟩

/-! ## Claim C5, amended -/

theorem except_bind_ok {α β : Type} (a : α) (f : α → Except String β) :
    (Except.ok a : Except String α) >>= f = f a := rfl

theorem except_bind_error {α β : Type} (e : String) (f : α → Except String β) :
    (Except.error e : Except String α) >>= f = Except.error e := rfl

theorem splitCharAux_append (sep : Char) (xs ys acc : List Char) :
    splitCharAux sep (xs ++ sep :: ys) acc =
      splitCharAux sep xs acc ++ splitCharAux sep ys [] := by
  induction xs generalizing acc with
  | nil => simp [splitCharAux]
  | cons x xs ih =>
    by_cases h : x = sep
    · simp [splitCharAux, h, ih]
    · simp [splitCharAux, h, ih]

theorem splitChar_append (sep : Char) (xs ys : List Char) :
    splitChar sep (xs ++ sep :: ys) = splitChar sep xs ++ splitChar sep ys :=
  splitCharAux_append sep xs ys []

theorem collectRules_append (v : Value) (rs1 rs2 : List (List Char)) (l1 l2 : List String)
    (h1 : collectRules v rs1 = .ok l1) (h2 : collectRules v rs2 = .ok l2) :
    collectRules v (rs1 ++ rs2) = .ok (l1 ++ l2) := by
  induction rs1 generalizing l1 with
  | nil =>
    simp only [collectRules] at h1
    obtain rfl : l1 = [] := by simpa using h1.symm
    simpa using h2
  | cons r rs ih =>
    simp only [collectRules, List.cons_append, List.append_eq] at h1 ⊢
    cases he : applyRule v r with
    | error e =>
      rw [he, except_bind_error] at h1
      exact absurd h1 (by simp)
    | ok e =>
      rw [he, except_bind_ok] at h1
      rw [except_bind_ok]
      cases hr : collectRules v rs with
      | error e2 =>
        rw [hr, except_bind_error] at h1
        exact absurd h1 (by simp)
      | ok es =>
        rw [hr, except_bind_ok] at h1
        rw [ih es hr, except_bind_ok]
        obtain rfl : l1 = e ++ es := by simpa using h1.symm
        simp

/-- Claim C5 amended: rule evaluation never short-circuits on satisfied or
violated constraints — whenever the two halves of a rule string evaluate
without raising, the concatenated rule string evaluates to the
concatenation of their violation lists, in declaration order and with no
deduplication (rules that raise, e.g. `email` on a truthy non-string or a
malformed `min:`/`max:` parameter, abort evaluation instead). -/
theorem claim_C5_amended (v : Value) (rs1 rs2 : String) (l1 l2 : List String)
    (h1 : validateProperty v rs1 = .ok l1) (h2 : validateProperty v rs2 = .ok l2) :
    validateProperty v (rs1 ++ "|" ++ rs2) = .ok (l1 ++ l2) := by
  unfold validateProperty at h1 h2 ⊢
  have hl : (rs1 ++ "|" ++ rs2).toList = rs1.toList ++ '|' :: rs2.toList := by
    show (rs1 ++ "|" ++ rs2).data = _
    rw [String.data_append, String.data_append]
    simp
  rw [hl, splitChar_append, List.map_append]
  exact collectRules_append v _ _ l1 l2 h1 h2

/-- Claim C5 amended, witness: a violated `required` does not stop a
second `required` from running, and the two identical messages are both
kept (no deduplication). -/
theorem claim_C5_witness :
    validateProperty (.vStr "") "required" = .ok [reqMsg] ∧
    validateProperty (.vStr "") ("required" ++ "|" ++ "required") = .ok ([reqMsg] ++ [reqMsg]) :=
  ⟨by decide,
    claim_C5_amended (.vStr "") "required" "required" [reqMsg] [reqMsg] (by decide) (by decide)⟩

/-! ## Claim C7, amended -/

theorem dropWhile_eq_self_of (l : List Char) (h : ∀ c ∈ l, isWS c = false) :
    l.dropWhile isWS = l := by
  cases l with
  | nil => rfl
  | cons x xs =>
    have hx : isWS x = false := h x (List.mem_cons_self x xs)
    simp [List.dropWhile_cons, hx]

theorem stripList_eq_self (l : List Char) (h : ∀ c ∈ l, isWS c = false) :
    stripList l = l := by
  unfold stripList
  rw [dropWhile_eq_self_of l h,
    dropWhile_eq_self_of l.reverse (fun c hc => h c (List.mem_reverse.mp hc)),
    List.reverse_reverse]

theorem splitCharAux_no_sep (sep : Char) (l : List Char) (acc : List Char)
    (h : ∀ c ∈ l, c ≠ sep) :
    splitCharAux sep l acc = [acc.reverse ++ l] := by
  induction l generalizing acc with
  | nil => simp [splitCharAux]
  | cons x xs ih =>
    have hx : x ≠ sep := h x (List.mem_cons_self x xs)
    simp only [splitCharAux, if_neg hx]
    rw [ih (x :: acc) (fun c hc => h c (List.mem_cons_of_mem x hc))]
    simp

theorem splitChar_no_sep (sep : Char) (l : List Char) (h : ∀ c ∈ l, c ≠ sep) :
    splitChar sep l = [l] := by
  unfold splitChar
  rw [splitCharAux_no_sep sep l [] h]
  rfl

theorem signDigit_not_ws (c : Char) (h : c.isDigit = true ∨ c = '-' ∨ c = '+') :
    isWS c = false := by
  rcases h with hd | rfl | rfl
  · by_contra hw
    rw [Bool.not_eq_false] at hw
    simp only [isWS, Bool.or_eq_true, decide_eq_true_eq] at hw
    rcases hw with ((rfl | rfl) | rfl) | rfl <;> exact absurd hd (by decide)
  · decide
  · decide

theorem signDigit_ne_pipe (c : Char) (h : c.isDigit = true ∨ c = '-' ∨ c = '+') :
    c ≠ '|' := by
  rcases h with hd | rfl | rfl
  · rintro rfl; exact absurd hd (by decide)
  · decide
  · decide

theorem signDigit_ne_colon (c : Char) (h : c.isDigit = true ∨ c = '-' ∨ c = '+') :
    c ≠ ':' := by
  rcases h with hd | rfl | rfl
  · rintro rfl; exact absurd hd (by decide)
  · decide
  · decide

theorem applyRule_min (v : Value) (p : List Char) (m : Int)
    (hpc : ∀ c ∈ p, c ≠ ':') (hp : pyInt? p = some m) :
    applyRule v ('m' :: 'i' :: 'n' :: ':' :: p) =
      .ok (if pyIsNumeric v then (if pyNumVal v < m then [minNumMsg m] else [])
           else if pyIsStr v then
             (if (pyStr v).length < m then [minLenMsg m] else [])
           else []) := by
  have hsplit : splitChar ':' ('m' :: 'i' :: 'n' :: ':' :: p) = [['m', 'i', 'n'], p] := by
    have he : ('m' :: 'i' :: 'n' :: ':' :: p) = ['m', 'i', 'n'] ++ ':' :: p := rfl
    rw [he, splitChar_append, splitChar_no_sep ':' p hpc]
    rfl
  unfold applyRule
  rw [show "required".toList = ['r', 'e', 'q', 'u', 'i', 'r', 'e', 'd'] from by decide]
  rw [if_neg (by intro hc; injection hc with h1 _; exact absurd h1 (by decide))]
  rw [show "min:".toList = ['m', 'i', 'n', ':'] from by decide]
  rw [if_pos (show List.take 4 ('m' :: 'i' :: 'n' :: ':' :: p) = ['m', 'i', 'n', ':'] from rfl)]
  simp only [hsplit, hp]

theorem applyRule_max (v : Value) (p : List Char) (m : Int)
    (hpc : ∀ c ∈ p, c ≠ ':') (hp : pyInt? p = some m) :
    applyRule v ('m' :: 'a' :: 'x' :: ':' :: p) =
      .ok (if pyIsNumeric v then (if m < pyNumVal v then [maxNumMsg m] else [])
           else if pyIsStr v then
             (if m < (pyStr v).length then [maxLenMsg m] else [])
           else []) := by
  have hsplit : splitChar ':' ('m' :: 'a' :: 'x' :: ':' :: p) = [['m', 'a', 'x'], p] := by
    have he : ('m' :: 'a' :: 'x' :: ':' :: p) = ['m', 'a', 'x'] ++ ':' :: p := rfl
    rw [he, splitChar_append, splitChar_no_sep ':' p hpc]
    rfl
  unfold applyRule
  rw [show "required".toList = ['r', 'e', 'q', 'u', 'i', 'r', 'e', 'd'] from by decide]
  rw [if_neg (by intro hc; injection hc with h1 _; exact absurd h1 (by decide))]
  rw [show "min:".toList = ['m', 'i', 'n', ':'] from by decide]
  rw [if_neg (by
    intro hc
    have hc' : ('m' :: 'a' :: 'x' :: ':' :: ([] : List Char)) = ['m', 'i', 'n', ':'] := hc
    injection hc' with _ hc2
    injection hc2 with h2 _
    exact absurd h2 (by decide))]
  rw [show "max:".toList = ['m', 'a', 'x', ':'] from by decide]
  rw [if_pos (show List.take 4 ('m' :: 'a' :: 'x' :: ':' :: p) = ['m', 'a', 'x', ':'] from rfl)]
  simp only [hsplit, hp]

theorem validateProperty_min_rule (v : Value) (pStr : String) (m : Int)
    (hchar : ∀ c ∈ pStr.toList, c.isDigit = true ∨ c = '-' ∨ c = '+')
    (hp : pyInt? pStr.toList = some m) :
    validateProperty v ("min:" ++ pStr) =
      .ok (if pyIsNumeric v then (if pyNumVal v < m then [minNumMsg m] else [])
           else if pyIsStr v then
             (if (pyStr v).length < m then [minLenMsg m] else [])
           else []) := by
  have hl : ("min:" ++ pStr).toList = 'm' :: 'i' :: 'n' :: ':' :: pStr.toList := by
    show ("min:" ++ pStr).data = _
    rw [String.data_append]; rfl
  have hpipe : ∀ c ∈ ('m' :: 'i' :: 'n' :: ':' :: pStr.toList), c ≠ '|' := by
    intro c hc
    rcases List.mem_cons.mp hc with rfl | hc; · decide
    rcases List.mem_cons.mp hc with rfl | hc; · decide
    rcases List.mem_cons.mp hc with rfl | hc; · decide
    rcases List.mem_cons.mp hc with rfl | hc; · decide
    exact signDigit_ne_pipe c (hchar c hc)
  have hws : ∀ c ∈ ('m' :: 'i' :: 'n' :: ':' :: pStr.toList), isWS c = false := by
    intro c hc
    rcases List.mem_cons.mp hc with rfl | hc; · decide
    rcases List.mem_cons.mp hc with rfl | hc; · decide
    rcases List.mem_cons.mp hc with rfl | hc; · decide
    rcases List.mem_cons.mp hc with rfl | hc; · decide
    exact signDigit_not_ws c (hchar c hc)
  unfold validateProperty
  rw [hl, splitChar_no_sep '|' _ hpipe]
  simp only [List.map_cons, List.map_nil]
  rw [stripList_eq_self _ hws]
  simp only [collectRules]
  rw [applyRule_min v pStr.toList m (fun c hc => signDigit_ne_colon c (hchar c hc)) hp]
  rw [except_bind_ok, except_bind_ok]
  exact congrArg Except.ok (List.append_nil _)

theorem validateProperty_max_rule (v : Value) (pStr : String) (m : Int)
    (hchar : ∀ c ∈ pStr.toList, c.isDigit = true ∨ c = '-' ∨ c = '+')
    (hp : pyInt? pStr.toList = some m) :
    validateProperty v ("max:" ++ pStr) =
      .ok (if pyIsNumeric v then (if m < pyNumVal v then [maxNumMsg m] else [])
           else if pyIsStr v then
             (if m < (pyStr v).length then [maxLenMsg m] else [])
           else []) := by
  have hl : ("max:" ++ pStr).toList = 'm' :: 'a' :: 'x' :: ':' :: pStr.toList := by
    show ("max:" ++ pStr).data = _
    rw [String.data_append]; rfl
  have hpipe : ∀ c ∈ ('m' :: 'a' :: 'x' :: ':' :: pStr.toList), c ≠ '|' := by
    intro c hc
    rcases List.mem_cons.mp hc with rfl | hc; · decide
    rcases List.mem_cons.mp hc with rfl | hc; · decide
    rcases List.mem_cons.mp hc with rfl | hc; · decide
    rcases List.mem_cons.mp hc with rfl | hc; · decide
    exact signDigit_ne_pipe c (hchar c hc)
  have hws : ∀ c ∈ ('m' :: 'a' :: 'x' :: ':' :: pStr.toList), isWS c = false := by
    intro c hc
    rcases List.mem_cons.mp hc with rfl | hc; · decide
    rcases List.mem_cons.mp hc with rfl | hc; · decide
    rcases List.mem_cons.mp hc with rfl | hc; · decide
    rcases List.mem_cons.mp hc with rfl | hc; · decide
    exact signDigit_not_ws c (hchar c hc)
  unfold validateProperty
  rw [hl, splitChar_no_sep '|' _ hpipe]
  simp only [List.map_cons, List.map_nil]
  rw [stripList_eq_self _ hws]
  simp only [collectRules]
  rw [applyRule_max v pStr.toList m (fun c hc => signDigit_ne_colon c (hchar c hc)) hp]
  rw [except_bind_ok, except_bind_ok]
  exact congrArg Except.ok (List.append_nil _)

/-- Claim C7 amended: for `min:`/`max:` rules whose parameter is a plain
signed-decimal numeral parsing to `m`, a `None` value passes silently, but
a BOOLEAN does not pass silently — Python's `bool` is an `int` subtype, so
it is compared numerically (`True` as `1`, `False` as `0`); among the
spec's typed values only null is exempt from `min`/`max`. -/
theorem claim_C7_amended (pStr : String) (m : Int) (b : Bool)
    (hall : pStr.toList.all (fun c => c.isDigit || c = '-' || c = '+') = true)
    (hp : pyInt? pStr.toList = some m) :
    validateProperty .vNone ("min:" ++ pStr) = .ok [] ∧
    validateProperty .vNone ("max:" ++ pStr) = .ok [] ∧
    validateProperty (.vBool b) ("min:" ++ pStr) =
      .ok (if pyNumVal (.vBool b) < m then [minNumMsg m] else []) ∧
    validateProperty (.vBool b) ("max:" ++ pStr) =
      .ok (if m < pyNumVal (.vBool b) then [maxNumMsg m] else []) := by
  have hchar : ∀ c ∈ pStr.toList, c.isDigit = true ∨ c = '-' ∨ c = '+' := by
    intro c hc
    have hb := List.all_eq_true.mp hall c hc
    simp only [Bool.or_eq_true, decide_eq_true_eq] at hb
    tauto
  refine ⟨?_, ?_, ?_, ?_⟩
  · rw [validateProperty_min_rule .vNone pStr m hchar hp]; rfl
  · rw [validateProperty_max_rule .vNone pStr m hchar hp]; rfl
  · rw [validateProperty_min_rule (.vBool b) pStr m hchar hp]; rfl
  · rw [validateProperty_max_rule (.vBool b) pStr m hchar hp]; rfl

/-- Claim C7 amended, witness at parameter `2` and boolean `True`. -/
theorem claim_C7_witness :
    ("2".toList.all (fun c => c.isDigit || c = '-' || c = '+') = true) ∧
    pyInt? "2".toList = some 2 ∧
    (validateProperty .vNone ("min:" ++ "2") = .ok [] ∧
     validateProperty .vNone ("max:" ++ "2") = .ok [] ∧
     validateProperty (.vBool true) ("min:" ++ "2") =
       .ok (if pyNumVal (.vBool true) < 2 then [minNumMsg 2] else []) ∧
     validateProperty (.vBool true) ("max:" ++ "2") =
       .ok (if (2 : Int) < pyNumVal (.vBool true) then [maxNumMsg 2] else [])) :=
  ⟨by decide, by decide, claim_C7_amended "2" 2 true (by decide) (by decide)⟩

/-! ## Claim C2 -/

/-- Claim C2 counterexample: a declared field/rule pair whose field is not
an attribute of the instance is silently skipped by `is_valid` — the
component declares `ghost: required`, has no `ghost` attribute, and
`is_valid` returns `True`, although evaluating the declared pair via the
validation engine (on the absent/null value) yields a `required` error. -/
theorem claim_C2_counterexample :
    isValid c2Comp = .ok ({ c2Comp with errors := [] }, true) ∧
    hasattrB c2Comp "ghost" = false ∧
    validateProperty .vNone "required" = .ok ["This field is required."] := by
  decide

theorem hasattrB_errors (c : PyComponent) (e : List (String × List String)) (n : String) :
    hasattrB { c with errors := e } n = hasattrB c n := rfl

theorem pyGetattrV_errors (c : PyComponent) (e : List (String × List String)) (n : String) :
    pyGetattrV { c with errors := e } n = pyGetattrV c n := rfl

theorem collectErrors_empty_iff (c : PyComponent) (rs : List (String × String))
    (es : List (String × List String)) (h : collectErrors c rs = .ok es) :
    (es = [] ↔ ∀ p ∈ rs, hasattrB c p.1 = true →
      validateProperty (pyGetattrV c p.1) p.2 = .ok []) := by
  induction rs generalizing es with
  | nil =>
    simp only [collectErrors] at h
    obtain rfl : es = [] := by simpa using h.symm
    simp
  | cons pr rs ih =>
    obtain ⟨name, rules⟩ := pr
    by_cases ha : hasattrB c name = true
    · cases hv : validateProperty (pyGetattrV c name) rules with
      | error e =>
        simp [collectErrors, ha, hv] at h
      | ok errs =>
        by_cases he : errs = []
        · simp only [collectErrors, ha, hv, if_true, eq_self_iff_true, he] at h
          rw [List.forall_mem_cons]
          constructor
          · intro hes
            exact ⟨fun _ => by rw [hv, he], (ih es h).mp hes⟩
          · intro hb
            exact (ih es h).mpr hb.2
        · simp only [collectErrors, ha, hv, if_true, eq_self_iff_true, if_neg he] at h
          cases hr : collectErrors c rs with
          | error e =>
            rw [hr] at h
            simp [Except.map] at h
          | ok es' =>
            rw [hr] at h
            simp only [Except.map, Except.ok.injEq] at h
            obtain rfl : es = (name, errs) :: es' := h.symm
            rw [List.forall_mem_cons]
            constructor
            · intro hes
              exact absurd hes (by simp)
            · intro hb
              have hx := hb.1 ha
              rw [hv] at hx
              simp only [Except.ok.injEq] at hx
              exact absurd hx he
    · simp only [collectErrors, ha, if_false, Bool.not_eq_true] at h
      rw [List.forall_mem_cons]
      constructor
      · intro hes
        exact ⟨fun hcon => absurd hcon ha, (ih es h).mp hes⟩
      · intro hb
        exact (ih es h).mpr hb.2

theorem collectErrors_errors_irrel (c : PyComponent) (e : List (String × List String))
    (rs : List (String × String)) :
    collectErrors { c with errors := e } rs = collectErrors c rs := by
  induction rs with
  | nil => rfl
  | cons pr rest ih =>
    obtain ⟨name, rules⟩ := pr
    simp only [collectErrors, hasattrB_errors, pyGetattrV_errors, ih]

/-- Claim C2 amended: `is_valid` rebuilds the error map from scratch (its
result is independent of previously accumulated errors), but re-evaluates
only the declared field/rule pairs whose field exists as an attribute of
the instance (`hasattr`); pairs for absent fields are skipped.  When no
evaluation raises, it returns true iff every declared pair whose field is
present produced no error, iff the rebuilt error map is empty. -/
theorem claim_C2_amended (c c' : PyComponent) (b : Bool)
    (h : isValid c = .ok (c', b)) :
    ((b = true) ↔ ∀ p ∈ c.validationRules, hasattrB c p.1 = true →
        validateProperty (pyGetattrV c p.1) p.2 = .ok []) ∧
    ((b = true) ↔ c'.errors = []) ∧
    (∀ e, isValid { c with errors := e } = isValid c) := by
  have key : ∃ es, collectErrors c c.validationRules = .ok es ∧
      c' = { c with errors := es } ∧ b = es.isEmpty := by
    unfold isValid at h
    cases hc : collectErrors c c.validationRules with
    | error e =>
      rw [hc] at h
      simp [Except.map] at h
    | ok es =>
      rw [hc] at h
      simp only [Except.map, Except.ok.injEq, Prod.mk.injEq] at h
      exact ⟨es, rfl, h.1.symm, h.2.symm⟩
  obtain ⟨es, hc, rfl, rfl⟩ := key
  refine ⟨?_, ?_, ?_⟩
  · rw [List.isEmpty_iff]
    exact collectErrors_empty_iff c _ es hc
  · show es.isEmpty = true ↔ es = []
    exact List.isEmpty_iff
  · intro e
    unfold isValid
    rw [collectErrors_errors_irrel]

/-- Claim C2 amended, witness: a component whose single declared field is
present and passes its rule. -/
theorem claim_C2_witness :
    isValid c2wComp = .ok ({ c2wComp with errors := [] }, true) ∧
    ((true = true) ↔ ∀ p ∈ c2wComp.validationRules, hasattrB c2wComp p.1 = true →
        validateProperty (pyGetattrV c2wComp p.1) p.2 = .ok []) :=
  ⟨by decide,
    (claim_C2_amended c2wComp { c2wComp with errors := [] } true (by decide)).1⟩

/-! ## Claim C9 -/

/-- Claim C9: property serialization never raises — every entry of the
serialized properties map is JSON-safe, and each entry is the attribute's
value itself when that value is JSON-representable, or its `str()`
representation otherwise. -/
theorem claim_C9_serialization (c : PyComponent) (n : String) (v : Value)
    (h : (n, v) ∈ getSerializedProperties c) :
    jsonSafe v = true ∧
    ∃ ov, pyGetattr? c n = some ov ∧
      v = (if jsonSafe ov = true then ov else .vStr (pyStr ov)) := by
  unfold getSerializedProperties at h
  rw [List.mem_filterMap] at h
  obtain ⟨a, _, hfa⟩ := h
  by_cases hp : pyIsPrivate a = true
  · rw [if_pos hp] at hfa
    cases hfa
  · rw [if_neg hp] at hfa
    cases hg : pyGetattr? c a with
    | none =>
      simp only [hg] at hfa
      simp at hfa
    | some ov =>
      simp only [hg] at hfa
      by_cases hcal : pyCallable ov = true
      · rw [if_pos hcal] at hfa
        cases hfa
      · rw [if_neg hcal] at hfa
        have hav : a = n ∧ serializeValue ov = v := by simpa using hfa
        obtain ⟨rfl, hv⟩ := hav
        refine ⟨?_, ov, hg, ?_⟩
        · rw [← hv]
          unfold serializeValue
          by_cases hs : jsonSafe ov = true
          · rw [if_pos hs]
            exact hs
          · rw [if_neg hs]
            rfl
        · rw [← hv]
          rfl

/-- Claim C9, witness: a non-serializable object falls back to its string
representation. -/
theorem claim_C9_witness :
    (("gadget", Value.vStr "<Gadget object>") ∈ getSerializedProperties c9Comp) ∧
    (jsonSafe (Value.vStr "<Gadget object>") = true ∧
      ∃ ov, pyGetattr? c9Comp "gadget" = some ov ∧
        Value.vStr "<Gadget object>" =
          (if jsonSafe ov = true then ov else .vStr (pyStr ov))) :=
  ⟨by decide, claim_C9_serialization c9Comp "gadget" (Value.vStr "<Gadget object>") (by decide)⟩

/-! ## Claim C10 -/

theorem lookup_map_update (methods : List (String × PyFunc)) (mname rules : String) :
    List.lookup mname
        (methods.map (fun p => if p.1 = mname then (p.1, validateDec rules p.2) else p)) =
      (List.lookup mname methods).map (validateDec rules) := by
  induction methods with
  | nil => rfl
  | cons pr rest ih =>
    obtain ⟨k, f⟩ := pr
    simp only [List.map_cons]
    by_cases h : k = mname
    · subst h
      rw [if_pos rfl]
      simp [List.lookup]
    · rw [if_neg h]
      have hbeq : (mname == k) = false := beq_eq_false_iff_ne.mpr (Ne.symm h)
      simp [List.lookup, hbeq, ih]

theorem lookup_alSet (l : List (String × String)) (k v : String) :
    List.lookup k (alSet l k v) = some v := by
  induction l with
  | nil => simp [alSet, List.lookup]
  | cons pr rest ih =>
    obtain ⟨k', v'⟩ := pr
    by_cases h : k' = k
    · simp [alSet, h, List.lookup]
    · have hbeq : (k == k') = false := beq_eq_false_iff_ne.mpr (Ne.symm h)
      simp [alSet, h, List.lookup, hbeq, ih]

/-- Claim C10: the `@validate(rules)` decorator stores the rules on the
decorated function object itself and leaves the class-level
`_validation_rules` mapping — the one `is_valid` consults — unchanged, so
`is_valid` behaves identically before and after decoration; a class whose
rules are declared only via `@validate` keeps its empty class-level
mapping. -/
theorem claim_C10_decorator_frame (cls : PyClass) (mname rules : String) :
    (applyValidate cls mname rules).validationRules = cls.validationRules ∧
    (∀ f, List.lookup mname cls.methods = some f →
      List.lookup mname (applyValidate cls mname rules).methods =
        some (validateDec rules f) ∧
      List.lookup f.name ((validateDec rules f).validationRules.getD []) = some rules) ∧
    (∀ instA classA,
      isValid (mkComponent (applyValidate cls mname rules) instA classA) =
        isValid (mkComponent cls instA classA)) := by
  refine ⟨rfl, ?_, ?_⟩
  · intro f hf
    constructor
    · show List.lookup mname (cls.methods.map _) = _
      rw [lookup_map_update, hf]
      rfl
    · exact lookup_alSet _ _ _
  · intro instA classA
    rfl

/-- Claim C10, witness: decorating `save` with `@validate` on a class with
an empty class-level rules mapping. -/
theorem claim_C10_witness :
    List.lookup "save" c10Cls.methods = some c10Fn ∧
    (List.lookup "save" (applyValidate c10Cls "save" "required|min:3").methods =
        some (validateDec "required|min:3" c10Fn) ∧
      List.lookup c10Fn.name
          ((validateDec "required|min:3" c10Fn).validationRules.getD []) =
        some "required|min:3") :=
  ⟨by decide,
    (claim_C10_decorator_frame c10Cls "save" "required|min:3").2.1 c10Fn (by decide)⟩

end VoltWire
